import Mathlib

set_option linter.dupNamespace false

/-!
Shallow embedding of the StockAlert USSD service core.

Sources embedded here:
* `src/app/lib/ussdService.ts` (delivered as `src/unnamed/part_007`):
  `formatPhoneNumber`, `truncateResponse`, session creation / expiry /
  extension, `handleUssdSession`, `processUSSDLevel`;
* `src/app/lib/supplierFilteringService.ts` (part of
  `src/app/(auth)/layout.tsx` as delivered): `isSupplierEligible`,
  `getEligibleSuppliers` and their numeric helpers;
* `src/app/api/ussd/route.ts`: the plain-text response formatting of `POST`.

Modelling conventions:
* JavaScript strings are modelled as `String` (and, for the character-level
  algorithms, as `List Char`); all texts involved are ASCII/BMP, where
  JavaScript's UTF-16 `length` coincides with the code-point count.
* Timestamps (ISO strings in the source) are modelled as milliseconds
  (`Nat`), matching the arithmetic the source performs on `Date.now()`.
* JavaScript numbers that the source uses as integers are `Int`/`Nat`;
  the geographic/Haversine arithmetic stays on `Float` (JS doubles).
* Database reads and external gateways (`getUSSDSession`, `getUserByPhone`,
  `processUssdAlert`'s outcome, the alert query behind `getUserAlerts`, the
  registration write) are inputs of the functions that consume them.
* A thrown JavaScript `TypeError` (null/undefined dereference) is modelled
  with `Except`.
-/

namespace StockAlert

/-! ## Phone-number normalization (`formatPhoneNumber`, ussdService lines 35-51) -/

/-- `phoneNumber.replace(/[^\d+]/g, '')`: keep decimal digits and `+`. -/
def cleanPhone (s : List Char) : List Char :=
  s.filter (fun c => c.isDigit || c == '+')

/-- `formatPhoneNumber` on the character list of the input. -/
def formatPhoneNumberL (phoneNumber : List Char) : List Char :=
  let cleaned := cleanPhone phoneNumber
  if List.isPrefixOf ['+', '2', '5', '4'] cleaned then
    cleaned
  else if List.isPrefixOf ['2', '5', '4'] cleaned then
    '+' :: cleaned
  else if List.isPrefixOf ['0'] cleaned && cleaned.length == 10 then
    ['+', '2', '5', '4'] ++ cleaned.drop 1
  else if cleaned.length == 9 then
    ['+', '2', '5', '4'] ++ cleaned
  else
    ['+', '2', '5', '4'] ++ cleaned

/-- `formatPhoneNumber` on `String`s. -/
def formatPhoneNumber (phoneNumber : String) : String :=
  ⟨formatPhoneNumberL phoneNumber.toList⟩

/-! ## Response truncation (`truncateResponse`, ussdService lines 54-66) -/

def MAX_RESPONSE_LENGTH : Nat := 182

def ellipsis : List Char := ['.', '.', '.']

/-- `truncated.lastIndexOf(' ')`: index of the last space, `-1` if none. -/
def lastIndexOfSpace (cs : List Char) : Int :=
  match cs.reverse.findIdx? (· == ' ') with
  | some i => (cs.length : Int) - 1 - (i : Int)
  | none => -1

/-- `truncateResponse` on character lists.  JS `text.substring(0, maxLength - 3)`
clamps a negative bound to `0`, which `Nat` subtraction reproduces.  The JS
comparison `lastSpace > maxLength * 0.8` is between an integer and the double
`0.8 * maxLength`; for integer operands it coincides with the exact rational
comparison `5 * lastSpace > 4 * maxLength` used here. -/
def truncateResponseL (text : List Char) (maxLength : Nat) : List Char :=
  if text.length ≤ maxLength then text
  else
    let truncated := text.take (maxLength - 3)
    let lastSpace := lastIndexOfSpace truncated
    if 5 * lastSpace > 4 * (maxLength : Int) then
      (truncated.take lastSpace.toNat) ++ ellipsis
    else
      truncated ++ ellipsis

/-- `truncateResponse` on `String`s (the source's default `maxLength` is
`USSD_CONFIG.MAX_RESPONSE_LENGTH = 182`; callers here pass it explicitly). -/
def truncateResponse (text : String) (maxLength : Nat) : String :=
  ⟨truncateResponseL text.toList maxLength⟩


/-! ## Data model (src/app/types, fields the core reads) -/

inductive UrgencyLevel
  | low
  | medium
  | high
  | critical
deriving DecidableEq, Repr

def UrgencyLevel.display : UrgencyLevel → String
  | .low => "low"
  | .medium => "medium"
  | .high => "high"
  | .critical => "critical"

/-- `level.toUpperCase()` as used for the urgency menu and confirmations. -/
def UrgencyLevel.displayUpper : UrgencyLevel → String
  | .low => "LOW"
  | .medium => "MEDIUM"
  | .high => "HIGH"
  | .critical => "CRITICAL"

/-- `UserData` (optional TS fields are `Option`; `undefined` is `none`). -/
structure UserData where
  uid : String
  name : Option String
  facilityName : Option String
  location : Option String
  phoneNumber : Option String
deriving DecidableEq, Repr

/-- One entry of `StockAlert.drugs` (`DrugRequirement`). -/
structure DrugRequirement where
  drugName : String
  category : Option String
  requestedQuantity : Int
  urgencyLevel : UrgencyLevel
deriving Repr

structure AlertLocation where
  latitude : Option Float
  longitude : Option Float
  address : Option String
deriving Repr

structure StockAlert where
  id : String
  hospitalId : String
  hospitalName : String
  drugs : List DrugRequirement
  location : Option AlertLocation
  overallUrgency : UrgencyLevel
deriving Repr

/-- `businessHours` of `SupplierPreferences`.  The source field `end` is a
Lean keyword and is embedded as `stop`. -/
structure BusinessHours where
  start : String
  stop : String
  timezone : String
  workingDays : List Nat
deriving Repr

structure SupplierPreferences where
  supplierId : String
  drugCategories : List String
  urgencyLevels : List UrgencyLevel
  geographicRegions : List String
  maxDistance : Option Float
  minimumOrderValue : Option Int
  businessHours : Option BusinessHours
  isActive : Bool
deriving Repr

/-! ## Eligibility evaluator (supplierFilteringService) -/

/-- The wall-clock facts `isWithinBusinessHours` extracts from `new Date()`:
`getDay()` (0 = Sunday .. 6 = Saturday) and `toTimeString().slice(0, 5)`
(`"HH:MM"`). -/
structure ClockTime where
  day : Nat
  hhmm : String
deriving Repr

/-- JS truthiness of an optional number (`undefined`, `0` and `NaN` are
falsy). -/
def jsTruthyFloat : Option Float → Bool
  | none => false
  | some x => !(x == 0.0) && !x.isNaN

def jsTruthyInt : Option Int → Bool
  | none => false
  | some x => !(x == 0)

/-- JS truthiness of an optional string (`undefined` and `""` are falsy). -/
def jsTruthyStr : Option String → Bool
  | none => false
  | some s => !(s == "")

/-- `a || b` on optional strings: the JS string-valued or-default idiom. -/
def jsOrStr (a : Option String) (b : String) : String :=
  match a with
  | some s => if s == "" then b else s
  | none => b

def mathPI : Float := 3.141592653589793

/-- Haversine distance (supplierFilteringService `calculateDistance`). -/
def calculateDistance (lat1 lon1 lat2 lon2 : Float) : Float :=
  let r : Float := 6371.0
  let dLat := (lat2 - lat1) * mathPI / 180.0
  let dLon := (lon2 - lon1) * mathPI / 180.0
  let a := Float.sin (dLat / 2) * Float.sin (dLat / 2) +
    Float.cos (lat1 * mathPI / 180.0) * Float.cos (lat2 * mathPI / 180.0) *
    Float.sin (dLon / 2) * Float.sin (dLon / 2)
  let c := 2.0 * Float.atan2 (Float.sqrt a) (Float.sqrt (1.0 - a))
  r * c

def digitsToNat (cs : List Char) : Nat :=
  cs.foldl (fun n c => 10 * n + (c.toNat - '0'.toNat)) 0

/-- JS `parseFloat` restricted to plain decimal literals (`none` is `NaN`);
the exponent notation `parseFloat` also accepts never arises for the
`"lat,lng"` strings this service parses. -/
def jsParseFloat (s : String) : Option Float :=
  let cs := s.toList
  let signed : Bool × List Char :=
    match cs with
    | '-' :: r => (true, r)
    | '+' :: r => (false, r)
    | r => (false, r)
  let intPart := signed.2.takeWhile Char.isDigit
  let rest := signed.2.drop intPart.length
  let fracPart :=
    match rest with
    | '.' :: r => r.takeWhile Char.isDigit
    | _ => []
  if intPart.isEmpty && fracPart.isEmpty then none
  else
    let mag : Float := Float.ofNat (digitsToNat intPart) +
      Float.ofNat (digitsToNat fracPart) / Float.ofNat (10 ^ fracPart.length)
    some (if signed.1 then -mag else mag)

/-- `parseLocation`: parse a `"lat,lng"` supplier location, `none` otherwise. -/
def parseLocation (location : String) : Option (Float × Float) :=
  match location.splitOn "," with
  | [a, b] =>
    match jsParseFloat a.trim, jsParseFloat b.trim with
    | some lat, some lng => some (lat, lng)
    | _, _ => none
  | _ => none

/-- `calculateEstimatedOrderValue`: quantity × fixed unit price of 100. -/
def calculateEstimatedOrderValue (alert : StockAlert) : Int :=
  alert.drugs.foldl (fun total drug => total + drug.requestedQuantity * 100) 0

/-- `isWithinBusinessHours` with the wall clock passed explicitly. -/
def isWithinBusinessHours (businessHours : Option BusinessHours) (now : ClockTime) : Bool :=
  match businessHours with
  | none => true
  | some bh =>
    if !(bh.workingDays.contains now.day) then false
    else decide (bh.start ≤ now.hhmm) && decide (now.hhmm ≤ bh.stop)

/-- `isSupplierEligible` (supplierFilteringService lines 126-198). -/
def isSupplierEligible (supplier : UserData) (preferences : Option SupplierPreferences)
    (alert : StockAlert) (now : ClockTime) : Bool :=
  match preferences with
  | none => true
  | some prefs =>
    if !prefs.isActive then true
    else if !isWithinBusinessHours prefs.businessHours now then false
    else if prefs.urgencyLevels.length > 0 &&
        !(prefs.urgencyLevels.contains alert.overallUrgency) then false
    else if prefs.drugCategories.length > 0 &&
        !((alert.drugs.map (fun drug => jsOrStr drug.category "general")).any
          (fun category => prefs.drugCategories.contains category)) then false
    else if prefs.geographicRegions.length > 0 &&
        jsTruthyStr (alert.location.bind (·.address)) &&
        !(prefs.geographicRegions.any (fun region =>
          ((alert.location.bind (·.address)).getD "").toLower.containsSubstr
            region.toLower)) then false
    else
      let distanceFails : Bool :=
        if jsTruthyFloat prefs.maxDistance &&
            jsTruthyFloat (alert.location.bind (·.latitude)) &&
            jsTruthyFloat (alert.location.bind (·.longitude)) &&
            jsTruthyStr supplier.location then
          match parseLocation ((supplier.location).getD "") with
          | some coords =>
            calculateDistance ((alert.location.bind (·.latitude)).getD 0)
              ((alert.location.bind (·.longitude)).getD 0) coords.1 coords.2 >
              prefs.maxDistance.getD 0
          | none => false
        else false
      if distanceFails then false
      else if jsTruthyInt prefs.minimumOrderValue &&
          calculateEstimatedOrderValue alert < prefs.minimumOrderValue.getD 0 then false
      else true

/-- `getEligibleSuppliers`, with the two database reads (the supplier list and
the preference list) passed in; `find?` mirrors `allPreferences.find(p =>
p.supplierId === supplier.uid)`. -/
def getEligibleSuppliers (alert : StockAlert) (allSuppliers : List UserData)
    (allPreferences : List SupplierPreferences) (now : ClockTime) : List UserData :=
  allSuppliers.filter (fun supplier =>
    isSupplierEligible supplier
      (allPreferences.find? (fun p => p.supplierId == supplier.uid)) alert now)

/-! ## USSD session model (ussdService) -/

def SESSION_TIMEOUT_MINUTES : Nat := 3

def sessionTimeoutMs : Nat := SESSION_TIMEOUT_MINUTES * 60 * 1000

inductive Provider
  | safaricom
  | airtel
  | orange
deriving DecidableEq, Repr

inductive SessionStatus
  | active
  | completed
  | expired
  | cancelled
deriving DecidableEq, Repr

/-- One entry of the hard-coded drug list in `processUSSDLevel`. -/
structure Drug where
  id : String
  name : String
  category : String
  commonName : String
deriving DecidableEq, Repr

/-- The `sessionData` bag.  The source keys it as an untyped record; these are
exactly the keys the state machine reads or writes (`undefined` is `none`). -/
structure SessionData where
  action : Option String
  categories : Option (List String)
  selectedCategory : Option String
  categoryDrugs : Option (List Drug)
  selectedDrug : Option Drug
  quantity : Option Int
  name : Option String
  facilityName : Option String
deriving DecidableEq, Repr

/-- The `{}` a fresh session starts with. -/
def SessionData.empty : SessionData :=
  ⟨none, none, none, none, none, none, none, none⟩

structure USSDSession where
  sessionId : String
  phoneNumber : String
  serviceCode : String
  currentLevel : Nat
  sessionData : SessionData
  status : SessionStatus
  provider : Provider
  networkCode : Option String
  startedAt : Nat
  lastActivityAt : Nat
  expiresAt : Nat
deriving DecidableEq, Repr

/-- `createUSSDSession` (ussdService lines 121-157).  Its non-empty-parameter
validation and the session write are handled by the caller
(`handleUssdSession` returns early on empty parameters and catches write
failures), so the record construction is what is modelled. -/
def createUSSDSession (sessionId phoneNumber serviceCode : String) (provider : Provider)
    (networkCode : Option String) (now : Nat) : USSDSession :=
  { sessionId := sessionId
    phoneNumber := formatPhoneNumber phoneNumber
    serviceCode := serviceCode
    currentLevel := 1
    sessionData := SessionData.empty
    status := .active
    provider := provider
    networkCode := networkCode
    startedAt := now
    lastActivityAt := now
    expiresAt := now + sessionTimeoutMs }

/-- `isSessionExpired`: `now > expiryTime` (strict). -/
def isSessionExpired (session : USSDSession) (now : Nat) : Bool :=
  decide (now > session.expiresAt)

/-- `isSessionNearExpiry`: within the 30-second grace period. -/
def isSessionNearExpiry (session : USSDSession) (now : Nat) : Bool :=
  decide ((session.expiresAt : Int) - (now : Int) ≤ 30 * 1000)

/-- `extendSessionTimeout`: a fresh expiry, plus the `lastActivityAt` refresh
that `updateUSSDSession` appends to every update. -/
def extendSessionTimeout (session : USSDSession) (now : Nat) : USSDSession :=
  { session with expiresAt := now + sessionTimeoutMs, lastActivityAt := now }

/-! ## Menu state machine (`processUSSDLevel`, ussdService lines 311-628) -/

/-- The hard-coded drug list. -/
def drugs : List Drug :=
  [ ⟨"1", "Paracetamol", "Analgesics", "Panadol"⟩,
    ⟨"2", "Amoxicillin", "Antibiotics", "Amoxil"⟩,
    ⟨"3", "Ibuprofen", "Analgesics", "Brufen"⟩,
    ⟨"4", "Ciprofloxacin", "Antibiotics", "Cipro"⟩,
    ⟨"5", "Insulin", "Diabetes", "Insulin"⟩,
    ⟨"6", "Metformin", "Diabetes", "Glucophage"⟩,
    ⟨"7", "Amlodipine", "Hypertension", "Norvasc"⟩,
    ⟨"8", "Omeprazole", "Gastric", "Losec"⟩ ]

/-- The display order of the urgency menu. -/
def urgencyLevels : List UrgencyLevel := [.low, .medium, .high, .critical]

structure ProviderConfig where
  maxMenuItems : Nat
  shortMessages : Bool
deriving Repr

def providerConfig : Provider → ProviderConfig
  | .safaricom => ⟨8, false⟩
  | .airtel => ⟨6, true⟩
  | .orange => ⟨7, false⟩

/-- `[...new Set(l)]`: deduplicate keeping first-occurrence order. -/
def dedupFirst (l : List String) : List String :=
  l.foldl (fun acc c => if acc.contains c then acc else acc ++ [c]) []

/-- `items.map((x, index) => index+1 + ". " + x).join("\n")`. -/
def enumerateLines (items : List String) : String :=
  String.intercalate "\n" (items.enum.map (fun p => toString (p.1 + 1) ++ ". " ++ p.2))

/-- JS `parseInt(s, 10)`-style parsing: leading whitespace skipped, optional
sign, longest decimal-digit prefix, `none` for `NaN`.  (The hexadecimal
auto-detection of `parseInt` never applies to the menu inputs.) -/
def jsParseInt (s : String) : Option Int :=
  let cs := s.toList.dropWhile Char.isWhitespace
  match cs with
  | '-' :: r =>
    let ds := r.takeWhile Char.isDigit
    if ds.isEmpty then none else some (-(digitsToNat ds : Int))
  | '+' :: r =>
    let ds := r.takeWhile Char.isDigit
    if ds.isEmpty then none else some ((digitsToNat ds : Int))
  | r =>
    let ds := r.takeWhile Char.isDigit
    if ds.isEmpty then none else some ((digitsToNat ds : Int))

/-- `result.nextLevel || session.currentLevel`: JS or-default on numbers
(`undefined` and `0` are falsy). -/
def jsOrNat (a : Option Nat) (b : Nat) : Nat :=
  match a with
  | some n => if n == 0 then b else n
  | none => b

/-- String interpolation of a possibly-undefined value (`undefined` prints as
`"undefined"`). -/
def displayOptInt : Option Int → String
  | some n => toString n
  | none => "undefined"

def displayOptStr : Option String → String
  | some s => s
  | none => "undefined"

/-- A thrown JavaScript `TypeError` (property access on `null`/`undefined`). -/
inductive JsError
  | typeError
deriving DecidableEq, Repr

/-- What `processUSSDLevel` returns (`nextLevel` and `sessionData` are
optional in the source's return type). -/
structure LevelResult where
  response : String
  endSession : Bool
  nextLevel : Option Nat
  sessionData : Option SessionData
deriving DecidableEq, Repr

/-- Outcomes of the external collaborators the state machine invokes:
the `processUssdAlert` submission at level 6, the stored-alert query behind
`getUserAlerts` (level 2, option 2 — a DB- and locale-dependent terminal
text), and the `addDocument('users', …)` registration write at level 12. -/
structure CollabEnv where
  submitSuccess : Bool
  alertsResponse : String
  registerOk : Bool
deriving DecidableEq, Repr

/-- `processUSSDLevel`.  The session's `sessionId`/`phoneNumber` are consumed
only as payload of the side-effecting calls (`processUssdAlert`, the
registration write), whose outcomes `env` supplies, so they do not appear in
the returned value. -/
def processUSSDLevel (session : USSDSession) (userInput : String) (user : Option UserData)
    (provider : Provider) (env : CollabEnv) : Except JsError LevelResult :=
  let sessionData := session.sessionData
  let sanitizedInput := userInput.trim
  let config := providerConfig provider
  match session.currentLevel with
  | 1 =>
    let welcomeMessage :=
      match user with
      | some u =>
        if config.shortMessages then
          "Hi " ++ ((jsOrStr u.name "User").splitOn " ").headD "" ++
            "!\n1. Report Stock\n2. My Alerts\n3. Help\n0. Exit"
        else
          "Welcome " ++ jsOrStr u.name "User" ++
            " to StockAlert\n1. Report Low Stock\n2. Check My Alerts\n3. Help\n0. Exit"
      | none =>
        if config.shortMessages then
          "StockAlert\n1. Report Stock\n2. Register\n3. Help\n0. Exit"
        else
          "Welcome to StockAlert\n1. Report Low Stock\n2. Register\n3. Help\n0. Exit"
    .ok ⟨welcomeMessage, false, some 2, none⟩
  | 2 =>
    if sanitizedInput == "1" then
      match user with
      | none =>
        .ok ⟨if config.shortMessages then "Register first.\nEnter name:"
              else "Please register first.\nEnter your name:",
          false, some 10, some { sessionData with action := some "register" }⟩
      | some _ =>
        let categories := dedupFirst (drugs.map (·.category))
        let limitedCategories := categories.take (config.maxMenuItems - 1)
        let categoryList := enumerateLines limitedCategories
        .ok ⟨(if config.shortMessages then "Drug category:\n" else "Select drug category:\n") ++
            categoryList ++ "\n0. Back",
          false, some 3,
          some { sessionData with action := some "report", categories := some limitedCategories }⟩
    else if sanitizedInput == "2" then
      match user with
      | none =>
        .ok ⟨if config.shortMessages then "Register first (option 2)."
              else "Please register first by selecting option 2 from main menu.",
          true, none, none⟩
      | some _ => .ok ⟨env.alertsResponse, true, none, none⟩
    else if sanitizedInput == "3" then
      .ok ⟨if config.shortMessages then
            "Help:\n- Report stock\n- Get alerts\n- Earn airtime\nSupport: 0700123456"
          else
            "StockAlert Help:\n- Report low drug stock\n- Get real-time alerts\n- Earn airtime rewards\nFor support: Call 0700123456",
        true, none, none⟩
    else if sanitizedInput == "0" then
      .ok ⟨if config.shortMessages then "Thank you! Stay healthy!"
            else "Thank you for using StockAlert. Stay healthy!",
        true, none, none⟩
    else
      .ok ⟨if config.shortMessages then "Invalid. Try again:\n1. Report\n2. Alerts\n3. Help\n0. Exit"
            else "Invalid option. Please try again.\n1. Report Low Stock\n2. Check Alerts\n3. Help\n0. Exit",
        false, some 2, none⟩
  | 3 =>
    let categories := sessionData.categories.getD []
    if userInput == "0" then
      .ok ⟨"Welcome back to StockAlert\n1. Report Low Stock\n2. Check My Alerts\n3. Help\n0. Exit",
        false, some 2, none⟩
    else
      match (jsParseInt userInput).map (· - 1) with
      | some i =>
        if 0 ≤ i ∧ i < (categories.length : Int) then
          let selectedCategory := categories.getD i.toNat ""
          let categoryDrugs := drugs.filter (·.category == selectedCategory)
          let drugList := enumerateLines (categoryDrugs.map (·.name))
          .ok ⟨"Select drug from " ++ selectedCategory ++ ":\n" ++ drugList ++ "\n0. Back",
            false, some 4,
            some { sessionData with selectedCategory := some selectedCategory,
                                    categoryDrugs := some categoryDrugs }⟩
        else
          .ok ⟨"Invalid selection. Please select a valid category number.", false, some 3, none⟩
      | none =>
        .ok ⟨"Invalid selection. Please select a valid category number.", false, some 3, none⟩
  | 4 =>
    let categoryDrugs := sessionData.categoryDrugs.getD []
    if userInput == "0" then
      let categories := sessionData.categories.getD []
      let categoryList := enumerateLines categories
      .ok ⟨"Select drug category:\n" ++ categoryList ++ "\n0. Back", false, some 3, none⟩
    else
      match (jsParseInt userInput).map (· - 1) with
      | some i =>
        if 0 ≤ i ∧ i < (categoryDrugs.length : Int) then
          let selectedDrug := categoryDrugs.getD i.toNat ⟨"", "", "", ""⟩
          .ok ⟨"Enter current quantity for " ++ selectedDrug.name ++ " (number only):",
            false, some 5, some { sessionData with selectedDrug := some selectedDrug }⟩
        else
          .ok ⟨"Invalid selection. Please select a valid drug number.", false, some 4, none⟩
      | none =>
        .ok ⟨"Invalid selection. Please select a valid drug number.", false, some 4, none⟩
  | 5 =>
    match jsParseInt userInput with
    | none => .ok ⟨"Please enter a valid number (0 or greater):", false, some 5, none⟩
    | some quantity =>
      if quantity < 0 then
        .ok ⟨"Please enter a valid number (0 or greater):", false, some 5, none⟩
      else
        let urgencyList := enumerateLines (urgencyLevels.map UrgencyLevel.displayUpper)
        .ok ⟨"Quantity: " ++ toString quantity ++ " units\nSelect urgency level:\n" ++ urgencyList,
          false, some 6, some { sessionData with quantity := some quantity }⟩
  | 6 =>
    match (jsParseInt userInput).map (· - 1) with
    | some i =>
      if 0 ≤ i ∧ i < (urgencyLevels.length : Int) then
        let selectedUrgency := urgencyLevels.getD i.toNat .low
        -- Building `processUssdAlert`'s arguments dereferences `user!` and
        -- `sessionData.selectedDrug`, which throws when either is absent.
        match user, sessionData.selectedDrug with
        | none, _ => .error .typeError
        | some _, none => .error .typeError
        | some _, some selectedDrug =>
          if env.submitSuccess then
            .ok ⟨"✅ Alert submitted successfully!\n\nDrug: " ++ selectedDrug.name ++
                "\nQuantity: " ++ displayOptInt sessionData.quantity ++
                "\nUrgency: " ++ selectedUrgency.displayUpper ++
                "\n\nSuppliers have been notified. You'll receive airtime as reward. Thank you!",
              true, none, none⟩
          else
            .ok ⟨"❌ Failed to submit alert. Please try again later or contact support.",
              true, none, none⟩
      else
        .ok ⟨"Invalid selection. Please select a valid urgency level.", false, some 6, none⟩
    | none =>
      .ok ⟨"Invalid selection. Please select a valid urgency level.", false, some 6, none⟩
  | 10 =>
    if userInput.trim.length < 2 then
      .ok ⟨"Please enter a valid name (at least 2 characters):", false, some 10, none⟩
    else
      .ok ⟨"Enter your hospital/facility name:", false, some 11,
        some { sessionData with name := some userInput.trim }⟩
  | 11 =>
    if userInput.trim.length < 2 then
      .ok ⟨"Please enter a valid facility name:", false, some 11, none⟩
    else
      .ok ⟨"Enter your location (city/area):", false, some 12,
        some { sessionData with facilityName := some userInput.trim }⟩
  | 12 =>
    if userInput.trim.length < 2 then
      .ok ⟨"Please enter a valid location:", false, some 12, none⟩
    else
      -- `addDocument('users', newUserData)` under try/catch.
      if env.registerOk then
        .ok ⟨"✅ Registration successful!\nWelcome " ++ displayOptStr sessionData.name ++
            "!\n\nYou can now report stock alerts. Dial *789*12345# anytime.",
          true, none, none⟩
      else
        .ok ⟨"❌ Registration failed. Please try again later.", true, none, none⟩
  | _ =>
    .ok ⟨"Session error. Please dial *789*12345# to start again.", true, none, none⟩

/-! ## Session lifecycle manager (`handleUssdSession`, ussdService lines 232-308) -/

/-- What the handler returns to the route. -/
structure HandlerResult where
  response : String
  endSession : Bool
  nextLevel : Option Nat
deriving DecidableEq, Repr

/-- The request-scoped environment: the stored session (if any) as
`getUSSDSession` returns it, the caller record as `getUserByPhone` returns
it, the request's wall clock, and the collaborator outcomes. -/
structure StoreEnv where
  storedSession : Option USSDSession
  user : Option UserData
  now : Nat
  collab : CollabEnv
deriving Repr

/-- `handleUssdSession`.  The second component is the session record as
persisted when the request finishes (`none` when the early validation return
fires before any write).  Failures of the store itself are not modelled; the
`catch` branch is reached exactly when `processUSSDLevel` throws. -/
def handleUssdSession (sessionId phoneNumber userInput serviceCode : String)
    (provider : Provider) (networkCode : Option String) (env : StoreEnv) :
    HandlerResult × Option USSDSession :=
  if sessionId == "" || phoneNumber == "" || serviceCode == "" then
    (⟨"Invalid request parameters.", true, none⟩, env.storedSession)
  else
    let formattedPhone := formatPhoneNumber phoneNumber
    let session :=
      match env.storedSession with
      | some s => s
      | none => createUSSDSession sessionId formattedPhone serviceCode provider networkCode env.now
    if isSessionExpired session env.now then
      (⟨truncateResponse ("Session expired. Please dial " ++ serviceCode ++ " again.")
          MAX_RESPONSE_LENGTH, true, none⟩,
        some { session with status := .expired, lastActivityAt := env.now })
    else
      let stored :=
        if isSessionNearExpiry session env.now then extendSessionTimeout session env.now
        else session
      match processUSSDLevel session userInput env.user provider env.collab with
      | .error _ =>
        (⟨truncateResponse "Service temporarily unavailable. Please try again later."
            MAX_RESPONSE_LENGTH, true, none⟩, some stored)
      | .ok result =>
        let updated := { stored with
          currentLevel := jsOrNat result.nextLevel session.currentLevel
          sessionData := result.sessionData.getD session.sessionData
          lastActivityAt := env.now }
        (⟨truncateResponse result.response MAX_RESPONSE_LENGTH, result.endSession,
          result.nextLevel⟩, some updated)

/-- The per-request persistence step of `handleUssdSession` in isolation
(ussdService lines 279-288): new level, merged session data, refreshed
`lastActivityAt`. -/
def applyActivityUpdate (session : USSDSession) (result : LevelResult) (now : Nat) : USSDSession :=
  { session with
    currentLevel := jsOrNat result.nextLevel session.currentLevel
    sessionData := result.sessionData.getD session.sessionData
    lastActivityAt := now }

/-! ## Route response formatting (`POST` of src/app/api/ussd/route.ts) -/

/-- JS `s.substring(0, n)` for the in-range uses in the route. -/
def strTake (s : String) (n : Nat) : String :=
  ⟨s.toList.take n⟩

/-- The plain-text (Africa's Talking) response body: clip to the length
limit, then prepend `END`/`CON` (route lines 119-143). -/
def formatPlainBody (result : HandlerResult) : String :=
  let response :=
    if result.response.length > MAX_RESPONSE_LENGTH then
      strTake result.response (MAX_RESPONSE_LENGTH - 3) ++ "..."
    else result.response
  (if result.endSession then "END" else "CON") ++ " " ++ response

/-- The plain-text error response of the route's `catch` (route lines
165-180): every thrown error is flattened to a terminal `END` line. -/
def formatPlainError (errorMessage : String) : String :=
  if errorMessage.containsSubstr "timeout" then
    "END Request timeout. Please try again."
  else if errorMessage.containsSubstr "Invalid" ||
      errorMessage.containsSubstr "Missing required parameters" then
    "END " ++ errorMessage
  else
    "END Service temporarily unavailable. Please try again later."

/-! ### Lemmas about `cleanPhone` / `formatPhoneNumberL` -/

lemma cleanPhone_append (a b : List Char) :
    cleanPhone (a ++ b) = cleanPhone a ++ cleanPhone b :=
  List.filter_append ..

lemma cleanPhone_cleanPhone (s : List Char) : cleanPhone (cleanPhone s) = cleanPhone s := by
  induction s with
  | nil => rfl
  | cons c cs ih =>
    by_cases h : (c.isDigit || c == '+') = true
    · simp only [cleanPhone, List.filter_cons, h, if_true] at ih ⊢
      simp [h, ih]
    · simp only [cleanPhone, List.filter_cons, h] at ih ⊢
      simp [h, ih]

lemma cleanPhone_plus254_append (l : List Char) :
    cleanPhone (['+', '2', '5', '4'] ++ l) = ['+', '2', '5', '4'] ++ cleanPhone l := by
  rw [cleanPhone_append]
  rfl

lemma cleanPhone_drop_one (s : List Char) :
    cleanPhone ((cleanPhone s).drop 1) = (cleanPhone s).drop 1 := by
  apply List.filter_eq_self.mpr
  intro a ha
  have hmem : a ∈ cleanPhone s := List.mem_of_mem_drop ha
  unfold cleanPhone at hmem
  exact (List.mem_filter.mp hmem).2

/-- Every output of `formatPhoneNumberL` is fixed by `cleanPhone` and starts
with `+254`. -/
lemma formatPhoneNumberL_normalized (s : List Char) :
    cleanPhone (formatPhoneNumberL s) = formatPhoneNumberL s ∧
      List.isPrefixOf ['+', '2', '5', '4'] (formatPhoneNumberL s) = true := by
  unfold formatPhoneNumberL
  by_cases h1 : List.isPrefixOf ['+', '2', '5', '4'] (cleanPhone s) = true
  · simp only [h1, if_true]
    exact ⟨cleanPhone_cleanPhone s, trivial⟩
  · simp only [h1]
    by_cases h2 : List.isPrefixOf ['2', '5', '4'] (cleanPhone s) = true
    · simp only [h2, if_true, if_false, Bool.false_eq_true]
      constructor
      · show cleanPhone ('+' :: cleanPhone s) = '+' :: cleanPhone s
        have : cleanPhone ('+' :: cleanPhone s) = '+' :: cleanPhone (cleanPhone s) := by
          simp [cleanPhone, List.filter_cons]
        rw [this, cleanPhone_cleanPhone]
      · show List.isPrefixOf ['+', '2', '5', '4'] ('+' :: cleanPhone s) = true
        simp [List.isPrefixOf, h2]
    · simp only [h2]
      by_cases h3 : (List.isPrefixOf ['0'] (cleanPhone s) && (cleanPhone s).length == 10) = true
      · simp only [h3, if_true, if_false, Bool.false_eq_true]
        constructor
        · rw [cleanPhone_plus254_append, cleanPhone_drop_one]
        · simp [List.isPrefixOf]
      · simp only [h3]
        by_cases h4 : ((cleanPhone s).length == 9) = true
        · simp only [h4, if_true, if_false, Bool.false_eq_true]
          constructor
          · rw [cleanPhone_plus254_append, cleanPhone_cleanPhone]
          · simp [List.isPrefixOf]
        · simp only [h4, if_false, Bool.false_eq_true]
          constructor
          · rw [cleanPhone_plus254_append, cleanPhone_cleanPhone]
          · simp [List.isPrefixOf]

lemma formatPhoneNumberL_idem (s : List Char) :
    formatPhoneNumberL (formatPhoneNumberL s) = formatPhoneNumberL s := by
  obtain ⟨hclean, hpre⟩ := formatPhoneNumberL_normalized s
  conv_lhs => rw [formatPhoneNumberL]
  simp only [hclean, hpre, if_true]

lemma formatPhoneNumber_idem (s : String) :
    formatPhoneNumber (formatPhoneNumber s) = formatPhoneNumber s := by
  unfold formatPhoneNumber
  have : (String.mk (formatPhoneNumberL s.toList)).toList = formatPhoneNumberL s.toList := rfl
  rw [this, formatPhoneNumberL_idem]

/-! ### Lemmas about `truncateResponseL` -/

lemma truncateResponseL_length_le (text : List Char) (maxLength : Nat)
    (h : 3 ≤ maxLength) : (truncateResponseL text maxLength).length ≤ maxLength := by
  unfold truncateResponseL
  by_cases hle : text.length ≤ maxLength
  · simp [hle]
  · simp only [hle, if_false]
    have hsub : maxLength - 3 + 3 = maxLength := Nat.sub_add_cancel h
    by_cases hsp : 5 * lastIndexOfSpace (text.take (maxLength - 3)) > 4 * (maxLength : Int)
    · simp only [hsp, if_true]
      rw [List.length_append]
      have h1 : ((text.take (maxLength - 3)).take
          (lastIndexOfSpace (text.take (maxLength - 3))).toNat).length ≤ maxLength - 3 := by
        rw [List.length_take, List.length_take]
        exact le_trans (Nat.min_le_right _ _) (Nat.min_le_left _ _)
      calc _ ≤ (maxLength - 3) + ellipsis.length := Nat.add_le_add_right h1 _
        _ = maxLength := by simpa [ellipsis] using hsub
    · simp only [hsp, if_false]
      rw [List.length_append]
      have h1 : (text.take (maxLength - 3)).length ≤ maxLength - 3 := by
        rw [List.length_take]
        exact Nat.min_le_left _ _
      calc _ ≤ (maxLength - 3) + ellipsis.length := Nat.add_le_add_right h1 _
        _ = maxLength := by simpa [ellipsis] using hsub

lemma truncateResponseL_shape (text : List Char) (maxLength : Nat) :
    truncateResponseL text maxLength = text ∨
      ∃ n, n ≤ maxLength - 3 ∧ truncateResponseL text maxLength = text.take n ++ ellipsis := by
  unfold truncateResponseL
  by_cases hle : text.length ≤ maxLength
  · left
    simp [hle]
  · right
    simp only [hle, if_false]
    by_cases hsp : 5 * lastIndexOfSpace (text.take (maxLength - 3)) > 4 * (maxLength : Int)
    · refine ⟨min (lastIndexOfSpace (text.take (maxLength - 3))).toNat (maxLength - 3), ?_, ?_⟩
      · exact Nat.min_le_right _ _
      · simp [hsp, List.take_take]
    · exact ⟨maxLength - 3, le_refl _, by simp [hsp]⟩

/-! ## Concrete fixtures used by witnesses and counterexamples -/

def demoSupplier : UserData :=
  ⟨"sup-1", some "Supplier One", some "MedSupply Ltd", some "Nairobi", some "+254700000001"⟩

def demoAlert : StockAlert :=
  ⟨"a1", "h1", "Kenyatta Hospital", [⟨"Paracetamol", some "Analgesics", 10, .medium⟩],
    none, .medium⟩

def demoClock : ClockTime := ⟨2, "10:30"⟩

/-- A preference record for `demoSupplier` whose `isActive` flag is off. -/
def inactivePref : SupplierPreferences :=
  ⟨"sup-1", ["Analgesics"], [.critical], ["Nairobi"], none, some 500, none, false⟩

/-- An active critical-only preference record for `demoSupplier`. -/
def activeCriticalPref : SupplierPreferences :=
  ⟨"sup-1", ["Analgesics"], [.critical], [], none, none, none, true⟩

/-! ## Claim theorems -/

/-- C1: a supplier with no active preference record — no record at all in the
preference list, or a found record whose `isActive` flag is false — is in the
eligible set `getEligibleSuppliers` computes, for every alert and every wall
clock (open-default policy). -/
theorem eligible_when_no_active_preferences (supplier : UserData)
    (allSuppliers : List UserData) (allPreferences : List SupplierPreferences)
    (alert : StockAlert) (now : ClockTime)
    (hmem : supplier ∈ allSuppliers)
    (hpref : ∀ p, allPreferences.find? (fun q => q.supplierId == supplier.uid) = some p →
      p.isActive = false) :
    supplier ∈ getEligibleSuppliers alert allSuppliers allPreferences now := by
  refine List.mem_filter.mpr ⟨hmem, ?_⟩
  cases hfind : allPreferences.find? (fun q => q.supplierId == supplier.uid) with
  | none => rfl
  | some p =>
    have hp := hpref p hfind
    simp [isSupplierEligible, hp]

/-- Witness for C1 at a concrete supplier whose only preference record is
inactive. -/
theorem eligible_when_no_active_preferences_witness :
    demoSupplier ∈ getEligibleSuppliers demoAlert [demoSupplier] [inactivePref] demoClock :=
  eligible_when_no_active_preferences demoSupplier [demoSupplier] [inactivePref]
    demoAlert demoClock (by decide)
    (fun p hp => by
      have heval : List.find? (fun q => q.supplierId == demoSupplier.uid) [inactivePref]
          = some inactivePref := rfl
      rw [heval] at hp
      injection hp with h
      rw [← h]
      rfl)

/-- C5 fails as stated: `isActive` is itself a preference field, and with
`isActive = false` a record with `urgencyLevels = [critical]` falls back to
the open default, so the supplier is included for a `medium` alert. -/
theorem urgency_filter_counterexample :
    inactivePref.urgencyLevels = [UrgencyLevel.critical] ∧
    demoAlert.overallUrgency = UrgencyLevel.medium ∧
    isSupplierEligible demoSupplier (some inactivePref) demoAlert demoClock = true := by
  refine ⟨rfl, rfl, ?_⟩
  rfl

/-- C5 (amended): for every supplier whose preference record is active and has
`urgencyLevels = [critical]`, and every alert with `overallUrgency = medium`,
the evaluator excludes the supplier regardless of all remaining preference
fields. -/
theorem urgency_filter_excludes (supplier : UserData) (p : SupplierPreferences)
    (alert : StockAlert) (now : ClockTime)
    (hact : p.isActive = true)
    (hurg : p.urgencyLevels = [UrgencyLevel.critical])
    (halert : alert.overallUrgency = UrgencyLevel.medium) :
    isSupplierEligible supplier (some p) alert now = false := by
  unfold isSupplierEligible
  simp only [hact, hurg, halert]
  cases hbh : isWithinBusinessHours p.businessHours now <;> simp

/-- Witness for the amended C5 at a concrete active critical-only record. -/
theorem urgency_filter_excludes_witness :
    isSupplierEligible demoSupplier (some activeCriticalPref) demoAlert demoClock = false :=
  urgency_filter_excludes demoSupplier activeCriticalPref demoAlert demoClock rfl rfl rfl

/-- C6: eligibility is monotone in restrictiveness — a supplier eligible under
some preference record is eligible under the no-preference baseline, and the
eligible set computed with any preference list is a subset of the one computed
with no preference records at all. -/
theorem eligibility_monotone (supplier : UserData) (prefs : Option SupplierPreferences)
    (alert : StockAlert) (now : ClockTime)
    (_h : isSupplierEligible supplier prefs alert now = true) :
    isSupplierEligible supplier none alert now = true ∧
    ∀ (allSuppliers : List UserData) (allPreferences : List SupplierPreferences),
      getEligibleSuppliers alert allSuppliers allPreferences now ⊆
        getEligibleSuppliers alert allSuppliers [] now := by
  refine ⟨rfl, ?_⟩
  intro allSuppliers allPreferences x hx
  exact List.mem_filter.mpr ⟨(List.mem_filter.mp hx).1, rfl⟩

/-- Witness for C6 at a concrete eligible supplier. -/
theorem eligibility_monotone_witness :
    isSupplierEligible demoSupplier none demoAlert demoClock = true ∧
    ∀ (allSuppliers : List UserData) (allPreferences : List SupplierPreferences),
      getEligibleSuppliers demoAlert allSuppliers allPreferences demoClock ⊆
        getEligibleSuppliers demoAlert allSuppliers [] demoClock :=
  eligibility_monotone demoSupplier (some inactivePref) demoAlert demoClock rfl

/-- C8: phone normalization is idempotent — a normalized number (any output of
`formatPhoneNumber`) is returned unchanged — and the four raw shapes all
normalize to `+254712345678`. -/
theorem phone_normalization_idempotent :
    (∀ s : String, formatPhoneNumber (formatPhoneNumber s) = formatPhoneNumber s) ∧
    formatPhoneNumber "0712345678" = "+254712345678" ∧
    formatPhoneNumber "712345678" = "+254712345678" ∧
    formatPhoneNumber "254712345678" = "+254712345678" ∧
    formatPhoneNumber "+254712345678" = "+254712345678" := by
  refine ⟨formatPhoneNumber_idem, ?_, ?_, ?_, ?_⟩ <;> rfl

/-- C2 fails as stated: for `maxLength = 2` the output `"..."` is longer than
the budget (JS clamps `substring(0, maxLength - 3)` to the empty string and
still appends the ellipsis), and for a spaceless text the fallback branch cuts
mid-word rather than at a space boundary or returning the full text. -/
theorem truncation_claim_counterexample :
    (truncateResponseL ("abcd".toList) 2).length > 2 ∧
    truncateResponseL (List.replicate 10 'a') 8 = List.replicate 5 'a' ++ ellipsis := by
  constructor
  · decide
  · decide

/-- C2 (amended): for every text and maximum length `L ≥ 3` the truncated
output has length at most `L`, and it either equals the full original text or
is a prefix of it (of at most `L - 3` characters) suffixed with the ellipsis
marker; the cut is only guaranteed to land on a space when the truncation
window's last space lies past 80% of `L`, so it may fall mid-word. -/
theorem truncation_length_and_shape (text : List Char) (maxLength : Nat)
    (h : 3 ≤ maxLength) :
    (truncateResponseL text maxLength).length ≤ maxLength ∧
    (truncateResponseL text maxLength = text ∨
      ∃ n, n ≤ maxLength - 3 ∧ truncateResponseL text maxLength = text.take n ++ ellipsis) :=
  ⟨truncateResponseL_length_le text maxLength h, truncateResponseL_shape text maxLength⟩

/-- Witness for the amended C2 at a concrete text and budget. -/
theorem truncation_length_and_shape_witness :
    (truncateResponseL ("stock alert for paracetamol".toList) 20).length ≤ 20 ∧
    (truncateResponseL ("stock alert for paracetamol".toList) 20 =
        "stock alert for paracetamol".toList ∨
      ∃ n, n ≤ 20 - 3 ∧ truncateResponseL ("stock alert for paracetamol".toList) 20 =
        ("stock alert for paracetamol".toList).take n ++ ellipsis) :=
  truncation_length_and_shape ("stock alert for paracetamol".toList) 20 (by decide)

/-- The session record stored by `createUSSDSession` at time `0`. -/
def demoStoredSession : USSDSession :=
  createUSSDSession "sess-1" "+254712345678" "*789*12345#" .safaricom none 0

/-- The record `handleUssdSession` persists for a level-1 request on
`demoStoredSession` at time `60000`: level advanced, `lastActivityAt`
refreshed, `expiresAt` untouched. -/
def demoUpdatedSession : USSDSession :=
  { demoStoredSession with currentLevel := 2, lastActivityAt := 60000 }

def demoCollab : CollabEnv := ⟨true, "Your recent alerts", true⟩

/-- C4 fails as stated: a mid-session request (not within the 30-second grace
window) refreshes `lastActivityAt` without touching `expiresAt`, so after the
per-request activity update `expiresAt` is not `lastActivityAt` plus the
timeout window. -/
theorem expiry_invariant_counterexample :
    (handleUssdSession "sess-1" "+254712345678" "" "*789*12345#" Provider.safaricom none
        ⟨some demoStoredSession, none, 60000, demoCollab⟩).2 = some demoUpdatedSession ∧
    demoUpdatedSession.lastActivityAt = 60000 ∧
    demoUpdatedSession.expiresAt = 180000 ∧
    demoUpdatedSession.expiresAt ≠ demoUpdatedSession.lastActivityAt + sessionTimeoutMs := by
  refine ⟨?_, rfl, rfl, ?_⟩
  · decide
  · decide

/-- C4 (amended): `expiresAt` equals the current time plus the fixed timeout
window after creation and after an expiry extension; the per-request activity
update leaves `expiresAt` unchanged while refreshing `lastActivityAt`, and for
a request on a not-yet-expired session `expiresAt` still bounds the refreshed
`lastActivityAt` from above. -/
theorem expiry_window_behavior (s : USSDSession) (r : LevelResult)
    (sid ph sc : String) (prov : Provider) (nc : Option String) (now : Nat)
    (hlive : now ≤ s.expiresAt) :
    (createUSSDSession sid ph sc prov nc now).expiresAt
        = (createUSSDSession sid ph sc prov nc now).lastActivityAt + sessionTimeoutMs ∧
    (extendSessionTimeout s now).expiresAt
        = (extendSessionTimeout s now).lastActivityAt + sessionTimeoutMs ∧
    (applyActivityUpdate s r now).expiresAt = s.expiresAt ∧
    (applyActivityUpdate s r now).lastActivityAt ≤ (applyActivityUpdate s r now).expiresAt :=
  ⟨rfl, rfl, rfl, hlive⟩

/-- Witness for the amended C4 at a concrete session and request time. -/
theorem expiry_window_behavior_witness :
    (createUSSDSession "sess-1" "+254712345678" "*789*12345#" Provider.safaricom none
        60000).expiresAt
      = (createUSSDSession "sess-1" "+254712345678" "*789*12345#" Provider.safaricom none
          60000).lastActivityAt + sessionTimeoutMs ∧
    (extendSessionTimeout demoStoredSession 60000).expiresAt
      = (extendSessionTimeout demoStoredSession 60000).lastActivityAt + sessionTimeoutMs ∧
    (applyActivityUpdate demoStoredSession ⟨"ok", false, some 2, none⟩ 60000).expiresAt
      = demoStoredSession.expiresAt ∧
    (applyActivityUpdate demoStoredSession ⟨"ok", false, some 2, none⟩ 60000).lastActivityAt
      ≤ (applyActivityUpdate demoStoredSession ⟨"ok", false, some 2, none⟩ 60000).expiresAt :=
  expiry_window_behavior demoStoredSession ⟨"ok", false, some 2, none⟩
    "sess-1" "+254712345678" "*789*12345#" Provider.safaricom none 60000 (by decide)

/-- C3 fails as stated: the state machine also reads the caller record, so two
invocations with identical `(level, input, sessionData)` — here level 1, empty
input, empty session data — but different callers return different responses. -/
theorem state_machine_determinism_counterexample :
    processUSSDLevel demoStoredSession "" none Provider.safaricom demoCollab =
      .ok ⟨"Welcome to StockAlert\n1. Report Low Stock\n2. Register\n3. Help\n0. Exit",
        false, some 2, none⟩ ∧
    processUSSDLevel demoStoredSession "" (some demoSupplier) Provider.safaricom demoCollab =
      .ok ⟨"Welcome Supplier One to StockAlert\n1. Report Low Stock\n2. Check My Alerts\n3. Help\n0. Exit",
        false, some 2, none⟩ ∧
    ("Welcome to StockAlert\n1. Report Low Stock\n2. Register\n3. Help\n0. Exit" : String) ≠
      "Welcome Supplier One to StockAlert\n1. Report Low Stock\n2. Check My Alerts\n3. Help\n0. Exit" := by
  refine ⟨rfl, rfl, by decide⟩

/-- C3 (amended): the state machine is deterministic as a function of all its
inputs — two invocations with identical `(level, input, sessionData)` AND the
same caller record, provider, and external-collaborator outcomes return the
same result (in particular the same `(response, nextLevel, endSession)`), even
when the sessions differ in every other field such as identifier or phone
number. -/
theorem state_machine_determinism (s1 s2 : USSDSession) (userInput : String)
    (user : Option UserData) (provider : Provider) (env : CollabEnv)
    (hlevel : s1.currentLevel = s2.currentLevel)
    (hdata : s1.sessionData = s2.sessionData) :
    processUSSDLevel s1 userInput user provider env =
      processUSSDLevel s2 userInput user provider env := by
  unfold processUSSDLevel
  rw [hlevel, hdata]

/-- Witness for the amended C3: two sessions agreeing only on level and
session data (different ids, phone numbers and timestamps) yield the same
result. -/
theorem state_machine_determinism_witness :
    processUSSDLevel demoStoredSession "1" (some demoSupplier) Provider.safaricom demoCollab =
      processUSSDLevel
        (createUSSDSession "sess-2" "+254700000009" "*789*99999#" Provider.safaricom none 500)
        "1" (some demoSupplier) Provider.safaricom demoCollab :=
  state_machine_determinism demoStoredSession
    (createUSSDSession "sess-2" "+254700000009" "*789*99999#" Provider.safaricom none 500)
    "1" (some demoSupplier) Provider.safaricom demoCollab rfl rfl

/-- C7: a request whose loaded session has passed its expiry time returns the
terminal "session expired" response with `endSession = true`, and the session
is persisted with status `expired` and its level and session data untouched —
the menu state machine is not consulted (the result is a function of the
stored record and the service code alone). -/
theorem expired_session_short_circuits (sessionId phoneNumber userInput serviceCode : String)
    (provider : Provider) (networkCode : Option String) (env : StoreEnv) (s : USSDSession)
    (hsid : sessionId ≠ "") (hph : phoneNumber ≠ "") (hsc : serviceCode ≠ "")
    (hstored : env.storedSession = some s)
    (hexp : isSessionExpired s env.now = true) :
    handleUssdSession sessionId phoneNumber userInput serviceCode provider networkCode env =
      (⟨truncateResponse ("Session expired. Please dial " ++ serviceCode ++ " again.")
          MAX_RESPONSE_LENGTH, true, none⟩,
        some { s with status := SessionStatus.expired, lastActivityAt := env.now }) := by
  unfold handleUssdSession
  have hcond : (sessionId == "" || phoneNumber == "" || serviceCode == "") = false := by
    simp [hsid, hph, hsc]
  rw [hcond]
  simp only [Bool.false_eq_true, if_false, hstored, hexp, if_true]

/-- Witness for C7: a session created at time `0` handled at time `200000`
(past the 180000 ms window). -/
theorem expired_session_short_circuits_witness :
    handleUssdSession "sess-1" "+254712345678" "1" "*789*12345#" Provider.safaricom none
        ⟨some demoStoredSession, some demoSupplier, 200000, demoCollab⟩ =
      (⟨truncateResponse ("Session expired. Please dial " ++ "*789*12345#" ++ " again.")
          MAX_RESPONSE_LENGTH, true, none⟩,
        some { demoStoredSession with status := SessionStatus.expired, lastActivityAt := 200000 }) :=
  expired_session_short_circuits "sess-1" "+254712345678" "1" "*789*12345#"
    Provider.safaricom none ⟨some demoStoredSession, some demoSupplier, 200000, demoCollab⟩
    demoStoredSession (by decide) (by decide) (by decide) rfl (by decide)

/-- C9: on the plain-text response path the body begins with `END ` exactly
when the session terminates and with `CON ` when it continues, and the route's
`catch` flattens every thrown error — validation failure, timeout, internal
failure — into a terminal body beginning with `END `, never a raw exception. -/
theorem plain_text_prefix_discipline (result : HandlerResult) (errorMessage : String) :
    (result.endSession = true → ∃ rest, formatPlainBody result = "END " ++ rest) ∧
    (result.endSession = false → ∃ rest, formatPlainBody result = "CON " ++ rest) ∧
    (∃ rest, formatPlainError errorMessage = "END " ++ rest) := by
  refine ⟨?_, ?_, ?_⟩
  · intro hend
    refine ⟨(if result.response.length > MAX_RESPONSE_LENGTH then
        strTake result.response (MAX_RESPONSE_LENGTH - 3) ++ "..." else result.response), ?_⟩
    unfold formatPlainBody
    rw [hend]
    rfl
  · intro hend
    refine ⟨(if result.response.length > MAX_RESPONSE_LENGTH then
        strTake result.response (MAX_RESPONSE_LENGTH - 3) ++ "..." else result.response), ?_⟩
    unfold formatPlainBody
    rw [hend]
    rfl
  · unfold formatPlainError
    by_cases h1 : errorMessage.containsSubstr "timeout" = true
    · exact ⟨"Request timeout. Please try again.", by rw [if_pos h1]; decide⟩
    · by_cases h2 : (errorMessage.containsSubstr "Invalid" ||
          errorMessage.containsSubstr "Missing required parameters") = true
      · exact ⟨errorMessage, by rw [if_neg h1, if_pos h2]⟩
      · exact ⟨"Service temporarily unavailable. Please try again later.",
          by rw [if_neg h1, if_neg h2]; decide⟩

/-- Witness for C9 at a concrete terminating result and a concrete error. -/
theorem plain_text_prefix_discipline_witness :
    ∃ rest, formatPlainBody ⟨"Thank you for using StockAlert. Stay healthy!", true, none⟩ =
      "END " ++ rest :=
  (plain_text_prefix_discipline ⟨"Thank you for using StockAlert. Stay healthy!", true, none⟩
    "Request timeout").1 rfl

/-- C10: at level 6, when the input selects a valid urgency but the caller is
unregistered or the session data lacks a `selectedDrug`, the transition throws
(the non-null dereferences built into `processUssdAlert`'s argument list fail)
instead of re-prompting, and `handleUssdSession` catches it and answers the
terminal "Service temporarily unavailable. Please try again later." response. -/
theorem level6_null_deref_caught (sessionId phoneNumber userInput serviceCode : String)
    (provider : Provider) (networkCode : Option String) (env : StoreEnv) (s : USSDSession)
    (i : Int)
    (hsid : sessionId ≠ "") (hph : phoneNumber ≠ "") (hsc : serviceCode ≠ "")
    (hstored : env.storedSession = some s)
    (hlevel : s.currentLevel = 6)
    (hexp : isSessionExpired s env.now = false)
    (hparse : (jsParseInt userInput).map (· - 1) = some i)
    (hlo : 0 ≤ i) (hhi : i < (urgencyLevels.length : Int))
    (hmissing : env.user = none ∨ s.sessionData.selectedDrug = none) :
    processUSSDLevel s userInput env.user provider env.collab = .error JsError.typeError ∧
    (handleUssdSession sessionId phoneNumber userInput serviceCode provider networkCode
        env).1 =
      ⟨"Service temporarily unavailable. Please try again later.", true, none⟩ := by
  have herr : processUSSDLevel s userInput env.user provider env.collab =
      .error JsError.typeError := by
    unfold processUSSDLevel
    rw [hlevel]
    simp only [hparse]
    rw [if_pos ⟨hlo, hhi⟩]
    rcases hmissing with hu | hd
    · rw [hu]
    · cases hu : env.user with
      | none => rfl
      | some u => rw [hd]
  refine ⟨herr, ?_⟩
  unfold handleUssdSession
  have hcond : (sessionId == "" || phoneNumber == "" || serviceCode == "") = false := by
    simp [hsid, hph, hsc]
  rw [hcond]
  simp only [Bool.false_eq_true, if_false, hstored, hexp, herr]
  have htrunc : truncateResponse "Service temporarily unavailable. Please try again later."
      MAX_RESPONSE_LENGTH = "Service temporarily unavailable. Please try again later." := by
    decide
  rw [htrunc]

/-- Witness for C10: a level-6 session, valid urgency input `"1"`, and an
unregistered caller. -/
theorem level6_null_deref_caught_witness :
    processUSSDLevel { demoStoredSession with currentLevel := 6 } "1" none
        Provider.safaricom demoCollab = .error JsError.typeError ∧
    (handleUssdSession "sess-1" "+254712345678" "1" "*789*12345#" Provider.safaricom none
        ⟨some { demoStoredSession with currentLevel := 6 }, none, 60000, demoCollab⟩).1 =
      ⟨"Service temporarily unavailable. Please try again later.", true, none⟩ :=
  level6_null_deref_caught "sess-1" "+254712345678" "1" "*789*12345#" Provider.safaricom none
    ⟨some { demoStoredSession with currentLevel := 6 }, none, 60000, demoCollab⟩
    { demoStoredSession with currentLevel := 6 } 0
    (by decide) (by decide) (by decide) rfl rfl (by decide) (by decide) (by decide) (by decide)
    (Or.inl rfl)

end StockAlert
